import Mathlib

/-!
Verification of the voxtus output-format core: segments, timecode rendering,
format writers, the format registry, and the processing-context /
signal-handling lifecycle.  Pure functions of the Python source are embedded
as Lean functions; floating-point seconds are embedded as rationals; the
filesystem is embedded as the list of existing directories / written files.
-/

namespace Voxtus

/-- One transcribed utterance, as produced by the transcription collaborator:
`id` ordinal, `start`/`stop` second offsets (Python attribute `end`), `text`. -/
structure Segment where
  id : Nat
  start : ℚ
  stop : ℚ
  text : String
deriving DecidableEq, Repr

/-- The descriptive record accompanying a transcript: title, source path/URL,
total duration in seconds, model name, language code. -/
structure TranscriptMetadata where
  title : String
  source : String
  duration : ℚ
  model : String
  language : String
deriving DecidableEq, Repr

/-- The decimal digit character for `n % 10`. -/
def digitChar (n : Nat) : Char := Char.ofNat (48 + n % 10)

/-- Fuel-driven decimal rendering of a natural number (most significant digit
first).  Fuel `n + 1` always suffices. -/
def natToStrAux : Nat → Nat → List Char
  | 0, _ => []
  | fuel+1, n => if n < 10 then [digitChar n] else natToStrAux fuel (n / 10) ++ [digitChar (n % 10)]

/-- Decimal rendering of a natural number, as Python `str`/`format` produce it. -/
def natToStr (n : Nat) : String := String.mk (natToStrAux (n + 1) n)

/-- Zero-pad to (at least) two digits, Python `{:02d}`. -/
def pad2 (n : Nat) : String := if n < 10 then "0" ++ natToStr n else natToStr n

/-- Zero-pad to (at least) three digits, Python `{:03d}`. -/
def pad3 (n : Nat) : String :=
  if n < 10 then "00" ++ natToStr n
  else if n < 100 then "0" ++ natToStr n
  else natToStr n

/-- Scale a rational by `k` and round half-up to the nearest integer, clamping
negative results to zero: `⌊q * k + 1/2⌋ = (2 * num * k + den) fdiv (2 * den)`,
computed on the numerator/denominator so the kernel can evaluate it. -/
def scaleRound (q : ℚ) (k : Nat) : Nat :=
  ((2 * q.num * Int.ofNat k + Int.ofNat q.den).fdiv (2 * Int.ofNat q.den)).toNat

/-- Python `{:.2f}` on a non-negative value: round to hundredths (half up) and
render with exactly two decimal places. -/
def fmt2 (q : ℚ) : String :=
  let n : Nat := scaleRound q 100
  natToStr (n / 100) ++ "." ++ pad2 (n % 100)

/-- Modelled from the spec: the TimeCode conversion module is not under `src/`.
Total milliseconds of a second offset: rounded half-up to the nearest
millisecond, clamped to be non-negative. -/
def totalMs (t : ℚ) : Nat := scaleRound t 1000

/-- Modelled from the spec: TimeCode SRT form `HH:MM:SS,mmm` (comma millisecond
separator, two-digit zero-padded fields, no upper bound on hours). -/
def srtTime (t : ℚ) : String :=
  pad2 (totalMs t / 3600000) ++ ":" ++ pad2 (totalMs t / 60000 % 60) ++ ":" ++
    pad2 (totalMs t / 1000 % 60) ++ "," ++ pad3 (totalMs t % 1000)

/-- Modelled from the spec: TimeCode WebVTT form `HH:MM:SS.mmm` (identical to
the SRT form except for the period millisecond separator). -/
def vttTime (t : ℚ) : String :=
  pad2 (totalMs t / 3600000) ++ ":" ++ pad2 (totalMs t / 60000 % 60) ++ ":" ++
    pad2 (totalMs t / 1000 % 60) ++ "." ++ pad3 (totalMs t % 1000)

/-- Replace a comma character by a period, leave everything else alone. -/
def swapChar (c : Char) : Char := if c = ',' then '.' else c

/-- Replace every comma of a string by a period (the millisecond-separator
substitution relating the SRT and WebVTT timestamp forms). -/
def swapSep (s : String) : String := String.mk (s.data.map swapChar)

/-- Modelled from the spec: the txt writer module is not under `src/`.
One rendered txt line: `[start:.2f - end:.2f]: <text>` plus newline. -/
def txtLine (s : Segment) : String :=
  "[" ++ fmt2 s.start ++ " - " ++ fmt2 s.stop ++ "]: " ++ s.text ++ "\n"

/-- Modelled from the spec: txt rendering is the concatenation of the per-
segment lines, with no header, footer or metadata. -/
def txtRender : List Segment → String
  | [] => ""
  | s :: rest => txtLine s ++ txtRender rest

/-- Modelled from the spec: one SRT block with its 1-based index: index line,
timing line in SRT TimeCode form, text line, blank separator line. -/
def srtBlock (idx : Nat) (s : Segment) : String :=
  natToStr idx ++ "\n" ++ srtTime s.start ++ " --> " ++ srtTime s.stop ++ "\n" ++
    s.text ++ "\n\n"

/-- SRT blocks numbered consecutively from `idx`. -/
def srtRenderFrom (idx : Nat) : List Segment → String
  | [] => ""
  | s :: rest => srtBlock idx s ++ srtRenderFrom (idx + 1) rest

/-- Modelled from the spec: the srt writer module is not under `src/`.
SRT rendering: numbered blocks starting at index 1, no file header, no
metadata block. -/
def srtRender (segs : List Segment) : String := srtRenderFrom 1 segs

/-- One entry of the JSON `transcript` array: integer `id`, numeric `start`
and `end`, string `text`. -/
structure JsonSegment where
  id : Nat
  start : ℚ
  stop : ℚ
  text : String
deriving DecidableEq, Repr

/-- One JSON metadata value: a JSON string or a JSON number. -/
inductive JMeta where
  | jstr (s : String)
  | jnum (q : ℚ)
deriving DecidableEq, Repr

/-- The JSON document emitted by the json writer: a `transcript` array and a
`metadata` object given as an ordered key/value list. -/
structure JsonDoc where
  transcript : List JsonSegment
  metadata : List (String × JMeta)
deriving DecidableEq, Repr

/-- Modelled from the spec: the json writer module is not under `src/`.
The `transcript` array entry for one segment. -/
def jsonSegment (s : Segment) : JsonSegment :=
  { id := s.id, start := s.start, stop := s.stop, text := s.text }

/-- Modelled from the spec: the `metadata` object with exactly the keys
`title`, `source`, `duration`, `model`, `language`. -/
def jsonMetadata (meta : TranscriptMetadata) : List (String × JMeta) :=
  [("title", .jstr meta.title), ("source", .jstr meta.source),
   ("duration", .jnum meta.duration), ("model", .jstr meta.model),
   ("language", .jstr meta.language)]

/-- Modelled from the spec: the whole JSON document for a transcript. -/
def jsonRender (segs : List Segment) (meta : TranscriptMetadata) : JsonDoc :=
  { transcript := segs.map jsonSegment, metadata := jsonMetadata meta }

/-- Modelled from the spec: the vtt writer module is not under `src/`.
One WebVTT cue block: timing line with period separators, text, blank line;
no numeric cue identifier. -/
def vttCue (s : Segment) : String :=
  vttTime s.start ++ " --> " ++ vttTime s.stop ++ "\n" ++ s.text ++ "\n\n"

/-- WebVTT cue blocks of a segment list. -/
def vttCues : List Segment → String
  | [] => ""
  | s :: rest => vttCue s ++ vttCues rest

/-- Modelled from the spec: WebVTT rendering, literal `WEBVTT` header then a
blank line, the five `NOTE <Label> <value>` metadata lines then a blank line,
then the cue blocks. -/
def vttRender (segs : List Segment) (meta : TranscriptMetadata) : String :=
  "WEBVTT\n\n" ++
  "NOTE Title " ++ meta.title ++ "\n" ++
  "NOTE Source " ++ meta.source ++ "\n" ++
  "NOTE Duration " ++ fmt2 meta.duration ++ "\n" ++
  "NOTE Language " ++ meta.language ++ "\n" ++
  "NOTE Model " ++ meta.model ++ "\n\n" ++
  vttCues segs

/-- The sentinel substituted for `source` when emitting to stdout. -/
def sentinelSource : String := "unknown"

/-- What one writer invocation produces: plain text content or a JSON
document. -/
inductive Content where
  | text (s : String)
  | jdoc (d : JsonDoc)
deriving DecidableEq, Repr

/-- The writer contract of `voxtus.formats.FormatWriter`: a file-mode
operation (the content written to the destination file) and a stdout-mode
operation (the content printed to standard output).  The file mode receives
the metadata with the real source; stdout mode substitutes the sentinel. -/
structure FormatWriter where
  write : List Segment → TranscriptMetadata → Content
  write_to_stdout : List Segment → TranscriptMetadata → Content

/-- Modelled from the spec: the txt writer variant (module `formats/txt.py`
is not under `src/`): both modes render the same byte sequence. -/
def txt_writer : FormatWriter where
  write segs _ := .text (txtRender segs)
  write_to_stdout segs _ := .text (txtRender segs)

/-- Modelled from the spec: the json writer variant (module `formats/json.py`
is not under `src/`): stdout mode substitutes the sentinel source. -/
def json_writer : FormatWriter where
  write segs meta := .jdoc (jsonRender segs meta)
  write_to_stdout segs meta := .jdoc (jsonRender segs { meta with source := sentinelSource })

/-- Modelled from the spec: the srt writer variant: no metadata at all, so
both modes render the same blocks. -/
def srt_writer : FormatWriter where
  write segs _ := .text (srtRender segs)
  write_to_stdout segs _ := .text (srtRender segs)

/-- Modelled from the spec: the vtt writer variant: stdout mode still emits
the NOTE block but with the sentinel source value. -/
def vtt_writer : FormatWriter where
  write segs meta := .text (vttRender segs meta)
  write_to_stdout segs meta := .text (vttRender segs { meta with source := sentinelSource })

/-- The registry state `voxtus.formats._format_registry`: an
insertion-ordered name-to-writer dictionary, embedded as an association
list. -/
abbrev Registry : Type := List (String × FormatWriter)

/-- Embedding of `register_format` (dict assignment `_format_registry[name] =
writer`): overwrite in place when the name is bound, append otherwise. -/
def register_format : Registry → String → FormatWriter → Registry
  | [], name, writer => [(name, writer)]
  | (k, v) :: rest, name, writer =>
    if k = name then (name, writer) :: rest
    else (k, v) :: register_format rest name writer

/-- Embedding of `get_format_writer`: raise `ValueError("Unknown format:
{name}")` when the name is unbound, return the writer otherwise. -/
def get_format_writer (r : Registry) (name : String) : Except String FormatWriter :=
  match (r : List (String × FormatWriter)).find? (fun p => p.1 = name) with
  | some p => .ok p.2
  | none => .error ("Unknown format: " ++ name)

/-- Embedding of `get_supported_formats`: the list of registered names in
insertion order. -/
def get_supported_formats (r : Registry) : List String :=
  (r : List (String × FormatWriter)).map Prod.fst

/-- Embedding of `write_format`: look the writer up, then invoke its
file-mode operation.  The result records the registry (unchanged by the
source function), the outcome, and the files written as name/content
pairs; on the error path nothing has been written. -/
def write_format (r : Registry) (name : String) (segs : List Segment)
    (meta : TranscriptMetadata) : Registry × Except String Unit × List (String × Content) :=
  match get_format_writer r name with
  | .ok w => (r, .ok (), [(name, w.write segs meta)])
  | .error e => (r, .error e, [])

/-- Embedding of `write_format_to_stdout`: look the writer up, then invoke
its stdout-mode operation.  The third component is the list of emissions to
standard output; on the error path it is empty. -/
def write_format_to_stdout (r : Registry) (name : String) (segs : List Segment)
    (meta : TranscriptMetadata) : Registry × Except String Unit × List Content :=
  match get_format_writer r name with
  | .ok w => (r, .ok (), [w.write_to_stdout segs meta])
  | .error e => (r, .error e, [])

/-- Modelled from the spec: the startup population of the registry (the
format modules auto-imported at startup register the four variants
`txt`, `json`, `srt`, `vtt`; the modules themselves are not under `src/`). -/
def startupRegistry : Registry :=
  register_format (register_format (register_format
    (register_format [] "txt" txt_writer) "json" json_writer)
    "srt" srt_writer) "vtt" vtt_writer

/-- Modelled from the spec: the Emitter / CLI run for a list of requested
format names in file mode.  Format names are validated up front
(a configuration error is detected before any work starts), so an unknown
name yields exit code 1 and no output file; otherwise each resolved writer
runs once, in the order requested, against the same segment/metadata pair,
and the run exits 0. -/
def run_cli (r : Registry) (names : List String) (segs : List Segment)
    (meta : TranscriptMetadata) : Nat × List (String × Content) :=
  if names.all (fun n => (get_supported_formats r).contains n) then
    (0, names.filterMap (fun n =>
      (get_format_writer r n).toOption.map (fun w => (n, w.write segs meta))))
  else
    (1, [])

/-- The filesystem as far as this core observes it: the set of existing
directory paths, as a list. -/
abbrev FS : Type := List String

/-- Membership of a path in the filesystem. -/
def FS.hasDir (fs : FS) (d : String) : Bool :=
  (fs : List String).contains d

/-- Embedding of `shutil.rmtree(path, ignore_errors=True)`: remove the
directory if present; an absent directory is not an error (best-effort). -/
def rmtree_ignore_errors (fs : FS) (d : String) : FS :=
  (fs : List String).filter (fun x => x ≠ d)

/-- Modelled from the spec: `voxtus/__main__.py` is not under `src/`.  A
processing context owns one run's temporary working directory plus the
internal flag recording whether cleanup has already run. -/
structure ProcessingContext where
  workdir : String
  cleanedUp : Bool
deriving DecidableEq, Repr

/-- Modelled from the spec: idempotent cleanup.  Returns the updated context,
the updated filesystem, and the number of directory removals attempted
(so a second invocation can be seen to attempt none).  It never fails:
removal is best-effort and an absent directory is tolerated. -/
def cleanup (ctx : ProcessingContext) (fs : FS) : ProcessingContext × FS × Nat :=
  if ctx.cleanedUp then (ctx, fs, 0)
  else ({ ctx with cleanedUp := true }, rmtree_ignore_errors fs ctx.workdir, 1)

/-- The two signals the coordinator handles. -/
inductive Sig where
  | interrupt
  | terminate
deriving DecidableEq, Repr

/-- Modelled from the spec: the fixed exit code of each handled signal. -/
def exitCode : Sig → Nat
  | .interrupt => 130
  | .terminate => 143

/-- Modelled from the spec and the unit test of `signal_handler`: on receipt
of a signal the handler removes the active context's working directory with
`shutil.rmtree(..., ignore_errors=True)` and then exits with the
signal-specific code.  Returns the filesystem after cleanup and the exit
code passed to `sys.exit`. -/
def signal_handler (sig : Sig) (ctx : Option ProcessingContext) (fs : FS) : FS × Nat :=
  match ctx with
  | some c => (rmtree_ignore_errors fs c.workdir, exitCode sig)
  | none => (fs, exitCode sig)

/-- The operations the program can apply to the registry after startup
(format lookup, format enumeration, file-mode dispatch, stdout-mode
dispatch). -/
inductive RuntimeOp where
  | getWriter (name : String)
  | supported
  | writeFile (name : String) (segs : List Segment) (meta : TranscriptMetadata)
  | writeStdout (name : String) (segs : List Segment) (meta : TranscriptMetadata)

/-- The registry state after one post-startup operation, taken from each
embedded operation's registry component (lookup and enumeration read the
registry without producing a new one). -/
def applyOp (r : Registry) : RuntimeOp → Registry
  | .getWriter _ => r
  | .supported => r
  | .writeFile name segs meta => (write_format r name segs meta).1
  | .writeStdout name segs meta => (write_format_to_stdout r name segs meta).1

/-- The registry state after a sequence of post-startup operations. -/
def applyOps (r : Registry) (ops : List RuntimeOp) : Registry :=
  ops.foldl applyOp r

/-! Registry lemmas -/

/-- Lookup of a name absent from the supported list yields the
`Unknown format` error. -/
theorem get_format_writer_of_not_mem (r : Registry) (name : String)
    (h : name ∉ get_supported_formats r) :
    get_format_writer r name = .error ("Unknown format: " ++ name) := by
  induction r with
  | nil => rfl
  | cons head tail ih =>
    simp only [get_supported_formats, List.map_cons, List.mem_cons, not_or] at h
    have h1 : (head.1 = name) = False := by
      exact eq_false (fun hk => h.1 (hk ▸ rfl))
    simp only [get_format_writer, List.find?_cons, h1, decide_False]
    exact ih h.2

/-- C9: registering a name and then looking it up returns exactly the
registered writer (the latest registration wins even when the name was
previously bound), and the name is among the supported formats afterwards. -/
theorem register_format_roundtrip (r : Registry) (n : String) (w : FormatWriter) :
    get_format_writer (register_format r n w) n = .ok w ∧
    n ∈ get_supported_formats (register_format r n w) := by
  induction r with
  | nil =>
    constructor
    · simp [register_format, get_format_writer]
    · simp [register_format, get_supported_formats]
  | cons head tail ih =>
    obtain ⟨k, v⟩ := head
    by_cases h : k = n
    · constructor
      · simp [register_format, h, get_format_writer]
      · simp [register_format, h, get_supported_formats]
    · constructor
      · simpa [register_format, h, get_format_writer, List.find?_cons] using ih.1
      · simp only [register_format, if_neg h, get_supported_formats, List.map_cons,
          List.mem_cons]
        exact Or.inr ih.2

/-- C3: requesting a format name that is not registered fails in
`get_format_writer` with an error naming the requested value, and the run
exits with code 1 having created no output file. -/
theorem unknown_format_error_and_exit (r : Registry) (name : String)
    (segs : List Segment) (meta : TranscriptMetadata)
    (h : name ∉ get_supported_formats r) :
    get_format_writer r name = .error ("Unknown format: " ++ name) ∧
    run_cli r [name] segs meta = (1, []) := by
  refine ⟨get_format_writer_of_not_mem r name h, ?_⟩
  simp [run_cli, h]

/-- Witness for C3 at the startup registry and the name `xml`. -/
theorem unknown_format_error_and_exit_witness :
    get_format_writer startupRegistry "xml" = .error ("Unknown format: " ++ "xml") ∧
    run_cli startupRegistry ["xml"] [] ⟨"t", "s", 0, "m", "l"⟩ = (1, []) :=
  unknown_format_error_and_exit startupRegistry "xml" [] ⟨"t", "s", 0, "m", "l"⟩
    (by decide)

/-- C10: dispatching an unknown format name through `write_format` or
`write_format_to_stdout` raises the unknown-format error before any writer
runs: nothing is written to a file or to standard output, and the registry is
unchanged. -/
theorem dispatch_unknown_format_atomic (r : Registry) (name : String)
    (segs : List Segment) (meta : TranscriptMetadata)
    (h : name ∉ get_supported_formats r) :
    write_format r name segs meta = (r, .error ("Unknown format: " ++ name), []) ∧
    write_format_to_stdout r name segs meta =
      (r, .error ("Unknown format: " ++ name), []) := by
  have e := get_format_writer_of_not_mem r name h
  exact ⟨by simp [write_format, e], by simp [write_format_to_stdout, e]⟩

/-- Witness for C10 at the startup registry and the name `yaml`. -/
theorem dispatch_unknown_format_atomic_witness :
    write_format startupRegistry "yaml" [] ⟨"t", "s", 0, "m", "l"⟩ =
      (startupRegistry, .error ("Unknown format: " ++ "yaml"), []) ∧
    write_format_to_stdout startupRegistry "yaml" [] ⟨"t", "s", 0, "m", "l"⟩ =
      (startupRegistry, .error ("Unknown format: " ++ "yaml"), []) :=
  dispatch_unknown_format_atomic startupRegistry "yaml" [] ⟨"t", "s", 0, "m", "l"⟩
    (by decide)

/-! Lifecycle theorems -/

/-- C6: cleanup is idempotent: after cleanup has run once, running it again
returns the same context and filesystem and attempts zero directory
removals (and, being a total function, raises nothing). -/
theorem cleanup_idempotent (c : ProcessingContext) (fs : FS) :
    cleanup (cleanup c fs).1 (cleanup c fs).2.1 =
      ((cleanup c fs).1, (cleanup c fs).2.1, 0) ∧
    (cleanup c fs).1.cleanedUp = true := by
  by_cases h : c.cleanedUp <;> simp [cleanup, h]

/-- C2: the signal handler removes the active context's working directory
(best-effort) and terminates with exit code 130 for an interrupt signal and
143 for a terminate signal. -/
theorem signal_handler_exit_codes_and_cleanup (c : ProcessingContext) (fs : FS) :
    (signal_handler .interrupt (some c) fs).2 = 130 ∧
    (signal_handler .terminate (some c) fs).2 = 143 ∧
    c.workdir ∉ (signal_handler .interrupt (some c) fs).1 ∧
    c.workdir ∉ (signal_handler .terminate (some c) fs).1 := by
  refine ⟨rfl, rfl, ?_, ?_⟩ <;>
    simp [signal_handler, rmtree_ignore_errors, List.mem_filter]

/-! Registry contents and closedness -/

/-- C7: after startup registration the registry maps exactly the four names
`txt`, `json`, `srt`, `vtt`; lookup of each succeeds, and requesting all four
formats in one run exits 0 and produces exactly four output files, one per
requested name. -/
theorem startup_registry_supports_four (segs : List Segment)
    (meta : TranscriptMetadata) :
    get_supported_formats startupRegistry = ["txt", "json", "srt", "vtt"] ∧
    (∃ w, get_format_writer startupRegistry "txt" = .ok w) ∧
    (∃ w, get_format_writer startupRegistry "json" = .ok w) ∧
    (∃ w, get_format_writer startupRegistry "srt" = .ok w) ∧
    (∃ w, get_format_writer startupRegistry "vtt" = .ok w) ∧
    (run_cli startupRegistry ["txt", "json", "srt", "vtt"] segs meta).1 = 0 ∧
    (run_cli startupRegistry ["txt", "json", "srt", "vtt"] segs meta).2.map Prod.fst =
      ["txt", "json", "srt", "vtt"] ∧
    (run_cli startupRegistry ["txt", "json", "srt", "vtt"] segs meta).2.length = 4 :=
  ⟨rfl, ⟨_, rfl⟩, ⟨_, rfl⟩, ⟨_, rfl⟩, ⟨_, rfl⟩, rfl, rfl, rfl⟩

/-- One post-startup operation never changes the registry. -/
theorem applyOp_eq_self (r : Registry) (op : RuntimeOp) : applyOp r op = r := by
  cases op with
  | getWriter _ => rfl
  | supported => rfl
  | writeFile name segs meta =>
    show (write_format r name segs meta).1 = r
    cases e : get_format_writer r name <;> simp [write_format, e]
  | writeStdout name segs meta =>
    show (write_format_to_stdout r name segs meta).1 = r
    cases e : get_format_writer r name <;> simp [write_format_to_stdout, e]

/-- C8 counterexample: `register_format` is an operation available at runtime
(it is a public function of `voxtus.formats`), and invoking it after startup
with a fresh name changes the set of registered names, so the registry is not
closed against every runtime operation. -/
theorem registry_open_counterexample :
    get_supported_formats (register_format startupRegistry "xml" txt_writer) ≠
      get_supported_formats startupRegistry := by decide

/-- C8 (amended): the operations the program itself performs after startup —
lookup, enumeration, file-mode dispatch and stdout-mode dispatch — never add,
remove, or replace a registry entry, so the registered name set is invariant
across every such sequence of operations; `register_format`, however,
remains callable and can add or replace entries. -/
theorem registry_invariant_post_startup (r : Registry) (ops : List RuntimeOp) :
    applyOps r ops = r ∧
    get_supported_formats (applyOps r ops) = get_supported_formats r := by
  have key : applyOps r ops = r := by
    induction ops with
    | nil => rfl
    | cons op rest ih =>
      show applyOps (applyOp r op) rest = r
      rw [applyOp_eq_self, ih]
  exact ⟨key, by rw [key]⟩

/-! File-mode versus stdout-mode output -/

/-- C1: for every segment sequence and metadata record, file-mode and
stdout-mode renderings agree on transcript content: txt output is
byte-identical; for json the `transcript` arrays are deep-equal, the
`metadata` key lists are identical, the metadata entries other than `source`
coincide, and `source` is the real path in file mode and the sentinel in
stdout mode. -/
theorem txt_json_file_stdout_agree (segs : List Segment) (meta : TranscriptMetadata) :
    txt_writer.write segs meta = txt_writer.write_to_stdout segs meta ∧
    (∃ fd sd, json_writer.write segs meta = .jdoc fd ∧
      json_writer.write_to_stdout segs meta = .jdoc sd ∧
      fd.transcript = sd.transcript ∧
      fd.metadata.map Prod.fst = sd.metadata.map Prod.fst ∧
      fd.metadata.filter (fun p => p.1 ≠ "source") =
        sd.metadata.filter (fun p => p.1 ≠ "source") ∧
      fd.metadata.lookup "source" = some (.jstr meta.source) ∧
      sd.metadata.lookup "source" = some (.jstr sentinelSource)) := by
  refine ⟨rfl, ⟨_, _, rfl, rfl, rfl, rfl, ?_, ?_, ?_⟩⟩ <;>
    simp [jsonRender, jsonMetadata, List.lookup]

/-! Timestamp and rendering shape -/

/-- Decimal digit characters are never commas. -/
theorem digitChar_ne_comma (n : Nat) : digitChar n ≠ ',' := by
  have h10 : n % 10 < 10 := Nat.mod_lt _ (by decide)
  have key : ∀ m, m < 10 → Char.ofNat (48 + m) ≠ ',' := by decide
  simpa [digitChar] using key (n % 10) h10

/-- No character of the fuel-driven decimal rendering is a comma. -/
theorem natToStrAux_ne_comma : ∀ fuel n : Nat, ∀ c ∈ natToStrAux fuel n, c ≠ ',' := by
  intro fuel
  induction fuel with
  | zero => intro n c hc; simp [natToStrAux] at hc
  | succ fuel ih =>
    intro n c hc
    by_cases h : n < 10
    · simp only [natToStrAux, if_pos h, List.mem_singleton] at hc
      exact hc ▸ digitChar_ne_comma n
    · simp only [natToStrAux, if_neg h, List.mem_append, List.mem_singleton] at hc
      rcases hc with hc | hc
      · exact ih _ c hc
      · exact hc ▸ digitChar_ne_comma _

/-- No character of a rendered natural number is a comma. -/
theorem natToStr_ne_comma (n : Nat) : ∀ c ∈ (natToStr n).data, c ≠ ',' :=
  fun c hc => natToStrAux_ne_comma _ _ c hc

/-- No character of a two-digit-padded field is a comma. -/
theorem pad2_ne_comma (n : Nat) : ∀ c ∈ (pad2 n).data, c ≠ ',' := by
  intro c hc
  by_cases h : n < 10
  · simp only [pad2, if_pos h, String.data_append, List.mem_append] at hc
    rcases hc with hc | hc
    · exact (by decide : ∀ x ∈ ("0" : String).data, x ≠ ',') c hc
    · exact natToStr_ne_comma n c hc
  · simp only [pad2, if_neg h] at hc
    exact natToStr_ne_comma n c hc

/-- No character of a three-digit-padded field is a comma. -/
theorem pad3_ne_comma (n : Nat) : ∀ c ∈ (pad3 n).data, c ≠ ',' := by
  intro c hc
  by_cases h : n < 10
  · simp only [pad3, if_pos h, String.data_append, List.mem_append] at hc
    rcases hc with hc | hc
    · exact (by decide : ∀ x ∈ ("00" : String).data, x ≠ ',') c hc
    · exact natToStr_ne_comma n c hc
  · by_cases h2 : n < 100
    · simp only [pad3, if_neg h, if_pos h2, String.data_append, List.mem_append] at hc
      rcases hc with hc | hc
      · exact (by decide : ∀ x ∈ ("0" : String).data, x ≠ ',') c hc
      · exact natToStr_ne_comma n c hc
    · simp only [pad3, if_neg h, if_neg h2] at hc
      exact natToStr_ne_comma n c hc

/-- Mapping the comma-to-period substitution over a comma-free character list
is the identity. -/
theorem map_swapChar_eq_self {l : List Char} (h : ∀ c ∈ l, c ≠ ',') :
    l.map swapChar = l := by
  induction l with
  | nil => rfl
  | cons a t ih =>
    have ha : a ≠ ',' := h a (List.mem_cons_self a t)
    simp only [List.map_cons, swapChar, if_neg ha]
    rw [ih (fun c hc => h c (List.mem_cons_of_mem a hc))]

/-- C5: for every second offset the SRT and WebVTT timestamp renderings are
both defined with the `HH:MM:SS` + milliseconds structure, and replacing the
comma of the SRT form by a period yields exactly the VTT form (they differ
only in the millisecond separator). -/
theorem srt_vtt_differ_only_in_separator (t : ℚ) :
    vttTime t = swapSep (srtTime t) ∧
    (∃ hh mm ss ms, srtTime t = hh ++ ":" ++ mm ++ ":" ++ ss ++ "," ++ ms ∧
      vttTime t = hh ++ ":" ++ mm ++ ":" ++ ss ++ "." ++ ms) := by
  constructor
  · apply String.ext
    show (vttTime t).data = ((srtTime t).data.map swapChar)
    have hcolon : (":" : String).data.map swapChar = (":" : String).data := by decide
    have hcomma : ("," : String).data.map swapChar = ("." : String).data := by decide
    simp only [srtTime, vttTime, String.data_append, List.map_append,
      map_swapChar_eq_self (pad2_ne_comma _), map_swapChar_eq_self (pad3_ne_comma _),
      hcolon, hcomma]
  · exact ⟨_, _, _, _, rfl, rfl⟩

/-- C4: the txt rendering is exactly the concatenation of one line per
segment, each of the form `[start:.2f - end:.2f]: <text>` with a trailing
newline — no header, footer, or metadata — and on the single example segment
the txt output and the 1-indexed SRT block are exactly the expected bytes. -/
theorem txt_and_srt_rendering_shape :
    (∀ segs : List Segment, txtRender segs = (segs.map txtLine).foldr (· ++ ·) "") ∧
    (∀ s : Segment, txtLine s =
      "[" ++ fmt2 s.start ++ " - " ++ fmt2 s.stop ++ "]: " ++ s.text ++ "\n") ∧
    txtRender [⟨0, 0, 7, " VoxDus is a command line tool for transcribing internet videos or local audio files into readable text."⟩] =
      "[0.00 - 7.00]:  VoxDus is a command line tool for transcribing internet videos or local audio files into readable text.\n" ∧
    srtRender [⟨0, 0, 7, " VoxDus is a command line tool for transcribing internet videos or local audio files into readable text."⟩] =
      "1\n00:00:00,000 --> 00:00:07,000\n VoxDus is a command line tool for transcribing internet videos or local audio files into readable text.\n\n" := by
  refine ⟨?_, fun s => rfl, by decide, by decide⟩
  intro segs
  induction segs with
  | nil => rfl
  | cons s rest ih => simp only [txtRender, List.map_cons, List.foldr_cons, ih]

end Voxtus
